import Mathlib

/-!
Shallow embedding of the Monkey interpreter (Go sources: `src/token/token.go`,
`src/lexer/lexer.go`, `src/ast/ast.go`, `src/object/object.go`,
`src/parser/parser.go`, `src/evaluator/evaluator.go`).

Modelling conventions, applied throughout:
* Go `int64` is modelled as `Int`; arithmetic that Go wraps (two's complement)
  is wrapped explicitly with `wrap64`.  Go integer division/modulo is
  truncated division (`Int.tdiv`/`Int.tmod`), and dividing by zero is a Go
  runtime panic, modelled by an explicit `panic` outcome.
* Go `float64` is modelled as `Rat`.  Every concrete float appearing in a
  theorem below is a small dyadic rational on which IEEE-754 double arithmetic
  is exact, so the rational model agrees with the Go value there.  (IEEE
  rounding, infinities and NaN are not modelled; no claim depends on them.)
* Go interface values may be `nil`; an evaluation result is therefore an
  `Option Obj`.  Calling a method on a nil interface value is a Go runtime
  panic, modelled by the explicit `panic` outcome.
* The evaluator's singletons `TRUE`, `FALSE`, `NULL` are compared by pointer
  in Go.  `Obj.boolean` carries a `shared` flag: `true` for the two process
  singletons produced by `nativeToBooleanObject`, `false` for the fresh
  `&object.Boolean{...}` allocated by `evalStringInfixExpression`.  `object.Null`
  is only ever the singleton, so `Obj.null` needs no flag.  Pointer equality
  of two values reaching the `==`/`!=` fallback is modelled by `goPtrEq`:
  two values are pointer-equal iff both are the same singleton.  (Aliasing of
  composite objects fetched twice from the same binding is not tracked; no
  claim is about comparing a composite object with itself.)
* Go environments are mutated in place and shared by pointer.  The model
  threads an explicit `Store` (list of frames); an environment pointer is an
  index into the store.
* Go's recursion can diverge (e.g. a recursive closure), so the evaluator
  takes explicit fuel; exhausting it yields the `timeout` outcome, which is
  never equal to any `ok`/`panic` outcome.
-/

namespace Monkey

/-! ### AST (`src/ast/ast.go`)

Each constructor mirrors one concrete node struct.  Token fields are kept
exactly where a `String()`/`TokenLiteral()` method reads them (as the stored
literal text); tokens never read by any method are dropped.  Fields that the
parser in `src/parser/parser.go` can leave as Go `nil` and whose `String()`
method tests for `nil` are `Option`s; `PrefixExpression.Right` and
`InfixExpression.Right` have no nil test in the source, so a failed
sub-parse stores the explicit `Expr.goNil` node (Go's nil `ast.Expression`). -/

mutual

inductive Expr where
  | identifier (value : String)
  | integerLiteral (lit : String) (value : Int)
  | floatLiteral (lit : String) (value : Rat)
  | booleanLit (lit : String) (value : Bool)
  | stringLit (lit : String) (value : String)
  | prefixExpr (op : String) (right : Expr)
  | infixExpr (op : String) (left : Expr) (right : Expr)
  | ifExpr (condition : Expr) (consequence : Block)
      (elseIfs : List ElseIf) (alternative : Option Block)
  | funcLit (tokLit : String) (parameters : List String) (body : Block)
  | callExpr (function : Expr) (arguments : List Expr)
  | arrayLit (elements : List Expr)
  | indexExpr (left : Expr) (index : Expr)
  | goNil

inductive ElseIf where
  | mk (condition : Expr) (consequence : Block)

inductive Block where
  | mk (statements : List Stmt)

inductive Stmt where
  | letStmt (tokLit : String) (name : String) (value : Option Expr)
  | returnStmt (tokLit : String) (returnValue : Option Expr)
  | exprStmt (expression : Option Expr)
  | blockStmt (block : Block)

end

def Block.statements : Block → List Stmt
  | .mk stmts => stmts

def ElseIf.condition : ElseIf → Expr
  | .mk c _ => c

def ElseIf.consequence : ElseIf → Block
  | .mk _ b => b

/-- Go `ast.Node`: the argument type of `Eval` (a `Program` is its statement
list; the other node kinds reached by `Eval`'s type switch are statements and
expressions). -/
inductive Node where
  | program (statements : List Stmt)
  | statement (s : Stmt)
  | expression (e : Expr)

/-! ### Runtime object model (`src/object/object.go`)

`Obj.function` stores the parameter identifiers' `Value` strings and the
captured environment as a store index.  `Obj.builtin` stores the builtin's
name; its native Go function pointer is defunctionalised into `builtinFn`
below.  `Obj.array`/`Obj.stringObj` mirror `object.Array`/`object.String`,
whose struct declarations are not among the provided sources but whose shape
is fixed by their uses in `src/evaluator/evaluator.go` (an element list and a
string value). -/

inductive Obj where
  | integer (value : Int)
  | float (value : Rat)
  | boolean (value : Bool) (shared : Bool)
  | null
  | returnValue (value : Option Obj)
  | error (message : String)
  | function (parameters : List String) (body : Block) (env : Nat)
  | stringObj (value : String)
  | array (elements : List (Option Obj))
  | builtin (name : String)

namespace object

def INTEGER_OBJ : String := "INTEGER"
def FLOAT_OBJ : String := "FLOAT"
def BOOLEAN_OBJ : String := "BOOLEAN"
def NULL_OBJ : String := "NULL"
def RETURN_VALUE_OBJ : String := "RETURN_VALUE"
def ERROR_OBJ : String := "ERROR"
def FUNCTION_OBJ : String := "FUNCTION"

/-- Modelled from the spec: the `object.String`/`object.Array`/`object.Builtin`
type-tag constants are referenced by `evaluator.go` (`object.STRING_OBJ`,
`object.ARRAY_OBJ`) but their declarations are not among the provided
sources; the spec lists string, array and builtin as distinct tagged value
variants, and the evaluator's error messages (`"argument to \"first\" must be
an ARRAY type.\ngot INTEGER"`, tested in `evaluator_test.go`) fix the tag
spellings used here. -/
def STRING_OBJ : String := "STRING"

/-- Modelled from the spec: see `object.STRING_OBJ`. -/
def ARRAY_OBJ : String := "ARRAY"

/-- Modelled from the spec: see `object.STRING_OBJ`. -/
def BUILTIN_OBJ : String := "BUILTIN"

end object

/-- The `Type()` method of each `object.Object` implementation. -/
def Obj.type : Obj → String
  | .integer _ => object.INTEGER_OBJ
  | .float _ => object.FLOAT_OBJ
  | .boolean _ _ => object.BOOLEAN_OBJ
  | .null => object.NULL_OBJ
  | .returnValue _ => object.RETURN_VALUE_OBJ
  | .error _ => object.ERROR_OBJ
  | .function _ _ _ => object.FUNCTION_OBJ
  | .stringObj _ => object.STRING_OBJ
  | .array _ => object.ARRAY_OBJ
  | .builtin _ => object.BUILTIN_OBJ

/-- The evaluator's singleton `NULL` (`var NULL = &object.Null{}`). -/
def NULL : Obj := .null

/-- The evaluator's singleton `TRUE` (`var TRUE = &object.Boolean{Value: true}`);
the `shared` flag marks it as the process-wide singleton allocation. -/
def TRUE : Obj := .boolean true true

/-- The evaluator's singleton `FALSE`. -/
def FALSE : Obj := .boolean false true

/-! ### Environments (`src/object/object.go`, second revision in `part_003`)

A `Frame` is one `object.Environment`: a name-to-value map (`store`, an
association list; Go map assignment = replace-or-add) and an optional outer
pointer.  A `Store` is the heap of all frames ever created; an environment
pointer is an index into it.  Values are `Option Obj` because a Go map can
store a nil interface value. -/

structure Frame where
  store : List (String × Option Obj)
  outer : Option Nat

abbrev Store := List Frame

/-- Association-list update modelling Go map assignment `e.store[name] = val`. -/
def storeSet : List (String × Option Obj) → String → Option Obj →
    List (String × Option Obj)
  | [], name, val => [(name, val)]
  | (k, v) :: rest, name, val =>
    if k = name then (k, val) :: rest else (k, v) :: storeSet rest name val

/-- Association-list lookup modelling Go map read `obj, ok := e.store[name]`. -/
def storeGet : List (String × Option Obj) → String → Option (Option Obj)
  | [], _ => none
  | (k, v) :: rest, name => if k = name then some v else storeGet rest name

/-- `object.NewEnvironment`: a fresh frame with no outer link; returns its
pointer (index) and the grown store. -/
def NewEnvironment (st : Store) : Nat × Store :=
  (st.length, st ++ [⟨[], none⟩])

/-- `object.NewEnclosedEnvironment`: a fresh frame whose outer link is the
given environment. -/
def NewEnclosedEnvironment (outer : Nat) (st : Store) : Nat × Store :=
  (st.length, st ++ [⟨[], some outer⟩])

/-- `Environment.Set`: mutate the frame at `env` in place.  A dangling
pointer leaves the store unchanged (unreachable for stores built by the
evaluator). -/
def envSet (st : Store) (env : Nat) (name : String) (val : Option Obj) :
    Store :=
  match st.get? env with
  | none => st
  | some frame => st.set env ⟨storeSet frame.store name val, frame.outer⟩

/-- `Environment.Get`: look up locally, then recurse through the outer link.
`fuel` bounds the chain walk (Go chains are finite and acyclic by
construction); `none` means not found (or a malformed chain longer than the
fuel, which the evaluator never builds). -/
def envGet : Nat → Store → Nat → String → Option (Option Obj)
  | 0, _, _, _ => none
  | fuel + 1, st, env, name =>
    match st.get? env with
    | none => none
    | some frame =>
      match storeGet frame.store name with
      | some v => some v
      | none =>
        match frame.outer with
        | some outer => envGet fuel st outer name
        | none => none

/-- Projection: the outer link of the frame an environment pointer refers
to (used to state properties of `extendFunctionEnv`). -/
def frameOuter (st : Store) (env : Nat) : Option (Option Nat) :=
  (st.get? env).map Frame.outer

/-! ### Pure evaluator helpers (`src/evaluator/evaluator.go`)

`POut` is the outcome of a helper that cannot touch the environment: a value
(possibly Go-nil), or a Go runtime panic. -/

inductive POut where
  | ok (o : Option Obj)
  | panic (msg : String)

/-- Two's-complement wrap of Go `int64` arithmetic. -/
def wrap64 (x : Int) : Int := (x + 2 ^ 63) % 2 ^ 64 - 2 ^ 63

/-- `newError`: format already applied at call sites. -/
def newError (msg : String) : Obj := .error msg

/-- `isError`: nil is not an error. -/
def isError : Option Obj → Bool
  | some (.error _) => true
  | _ => false

/-- `nativeToBooleanObject`: returns one of the two shared singletons. -/
def nativeToBooleanObject (value : Bool) : Obj :=
  if value then TRUE else FALSE

/-- `unwrapReturnValue`. -/
def unwrapReturnValue : Option Obj → Option Obj
  | some (.returnValue v) => v
  | obj => obj

/-- `isTruthy`: a `switch condition` comparing pointers against the
singletons `NULL`, `TRUE`, `FALSE`; everything else (including a non-singleton
`object.Boolean` allocation and a nil result) takes the `default` branch and
is truthy. -/
def isTruthy : Option Obj → Bool
  | some .null => false
  | some (.boolean true true) => true
  | some (.boolean false true) => false
  | _ => true

/-- `evalBangOperatorExpression`: the same pointer `switch`; any value other
than the three singletons defaults to `FALSE`. -/
def evalBangOperatorExpression : Option Obj → Obj
  | some (.boolean true true) => FALSE
  | some (.boolean false true) => TRUE
  | some .null => TRUE
  | _ => FALSE

/-- `evalMinusPrefixOperator`: a `switch right.Type()` (panicking on a nil
operand) with cases `INTEGER_OBJ`, `FLOAT_OBJ` and an unknown-operator error
default.  The constructor match below is the tag switch: each tag corresponds
to exactly one constructor. -/
def evalMinusPrefixOperator : Option Obj → POut
  | some (.integer value) => .ok (some (.integer (wrap64 (-value))))
  | some (.float value) => .ok (some (.float (-value)))
  | some o => .ok (some (newError ("unknown operator: -" ++ o.type)))
  | none => .panic "runtime error: invalid memory address or nil pointer dereference"

/-- `evalPrefixExpression`.  The default branch formats
`"unknown operator: %s%s"` with `right.Type()`, panicking on nil. -/
def evalPrefixExpression (operator : String) (right : Option Obj) : POut :=
  if operator = "!" then .ok (some (evalBangOperatorExpression right))
  else if operator = "-" then evalMinusPrefixOperator right
  else
    match right with
    | some o => .ok (some (newError ("unknown operator: " ++ operator ++ o.type)))
    | none => .panic "runtime error: invalid memory address or nil pointer dereference"

/-- `evalIntegerInfixExpression`.  Both operands are `*object.Integer` by the
dispatcher's guard (any other input would be a failed Go type assertion,
i.e. a panic).  Go `/` and `%` are truncated division and remainder, and both
panic when the right operand is zero. -/
def evalIntegerInfixExpression (operator : String) (left right : Obj) : POut :=
  match left, right with
  | .integer leftVal, .integer rightVal =>
    if operator = "+" then .ok (some (.integer (wrap64 (leftVal + rightVal))))
    else if operator = "-" then .ok (some (.integer (wrap64 (leftVal - rightVal))))
    else if operator = "*" then .ok (some (.integer (wrap64 (leftVal * rightVal))))
    else if operator = "/" then
      if rightVal = 0 then .panic "runtime error: integer divide by zero"
      else .ok (some (.integer (wrap64 (leftVal.tdiv rightVal))))
    else if operator = "%" then
      if rightVal = 0 then .panic "runtime error: integer divide by zero"
      else .ok (some (.integer (wrap64 (leftVal.tmod rightVal))))
    else if operator = "<" then .ok (some (nativeToBooleanObject (leftVal < rightVal)))
    else if operator = ">" then .ok (some (nativeToBooleanObject (leftVal > rightVal)))
    else if operator = "==" then .ok (some (nativeToBooleanObject (leftVal = rightVal)))
    else if operator = "!=" then .ok (some (nativeToBooleanObject (leftVal ≠ rightVal)))
    else .ok (some (newError
      ("unknown operator: " ++ left.type ++ " " ++ operator ++ " " ++ right.type)))
  | _, _ => .panic "interface conversion"

/-- Truncation toward zero of a rational (`float64`-to-int behaviour used in
`math.Mod`): the numerator divided by the (positive) denominator with
truncated division. -/
def ratTrunc (q : Rat) : Int := q.num.tdiv q.den

/-- Go `math.Mod(x, y)`: the remainder `x - Trunc(x/y)*y`, with the sign of
`x` (exact on the rational model whenever `y ≠ 0`). -/
def mathMod (x y : Rat) : Rat := x - (ratTrunc (x / y) : Rat) * y

/-- `evalFloatInfixExpression`: both operands are `*object.Float` by the
dispatcher's guard. -/
def evalFloatInfixExpression (operator : String) (left right : Obj) : POut :=
  match left, right with
  | .float leftVal, .float rightVal =>
    if operator = "+" then .ok (some (.float (leftVal + rightVal)))
    else if operator = "-" then .ok (some (.float (leftVal - rightVal)))
    else if operator = "*" then .ok (some (.float (leftVal * rightVal)))
    else if operator = "/" then .ok (some (.float (leftVal / rightVal)))
    else if operator = "%" then .ok (some (.float (mathMod leftVal rightVal)))
    else if operator = "<" then .ok (some (nativeToBooleanObject (leftVal < rightVal)))
    else if operator = ">" then .ok (some (nativeToBooleanObject (leftVal > rightVal)))
    else if operator = "==" then .ok (some (nativeToBooleanObject (leftVal = rightVal)))
    else if operator = "!=" then .ok (some (nativeToBooleanObject (leftVal ≠ rightVal)))
    else .ok (some (newError
      ("unknown operator: " ++ left.type ++ " " ++ operator ++ " " ++ right.type)))
  | _, _ => .panic "interface conversion"

/-- `evalFloatIntegerInfixExpression`.  In the source, when the left operand
is not a `*object.Float` it loads `_integerValue` from the left and
`_floatValue` from the right; when the right operand is not a `*object.Float`
it loads `_floatValue` from the left and `_integerValue` from the right.
Every operator is then applied as `_floatValue op float64(_integerValue)`:
the float operand always ends up on the left of the operator, regardless of
source order.  The two match arms below instantiate those assignments for the
two orientations the dispatcher can produce.  The operator `switch` shared by
both orientations is this function, with `_floatValue = fv` and
`_integerValue = iv`. -/
def evalFloatIntegerApply (operator : String) (left right : Obj)
    (fv : Rat) (iv : Int) : POut :=
  if operator = "+" then .ok (some (.float (fv + (iv : Rat))))
    else if operator = "-" then .ok (some (.float (fv - (iv : Rat))))
    else if operator = "*" then .ok (some (.float (fv * (iv : Rat))))
    else if operator = "/" then .ok (some (.float (fv / (iv : Rat))))
    else if operator = "%" then .ok (some (.float (mathMod fv (iv : Rat))))
    else if operator = "<" then .ok (some (nativeToBooleanObject (fv < (iv : Rat))))
    else if operator = ">" then .ok (some (nativeToBooleanObject (fv > (iv : Rat))))
    else if operator = "==" then .ok (some (nativeToBooleanObject (fv = (iv : Rat))))
    else if operator = "!=" then .ok (some (nativeToBooleanObject (fv ≠ (iv : Rat))))
    else .ok (some (newError
      ("unknown operator: " ++ left.type ++ " " ++ operator ++ " " ++ right.type)))

/-- `evalFloatIntegerInfixExpression` proper: the two orientation arms
instantiate the source's two `if` blocks (see `evalFloatIntegerApply`). -/
def evalFloatIntegerInfixExpression (operator : String) (left right : Obj) :
    POut :=
  match left, right with
  | .float leftFloat, .integer rightInt =>
    evalFloatIntegerApply operator left right leftFloat rightInt
  | .integer leftInt, .float rightFloat =>
    evalFloatIntegerApply operator left right rightFloat leftInt
  | _, _ => .panic "interface conversion"

/-- `evalStringInfixExpression`: note the `==` case allocates a fresh
`&object.Boolean{...}` (shared flag `false`), not one of the singletons. -/
def evalStringInfixExpression (operator : String) (left right : Obj) : POut :=
  match left, right with
  | .stringObj leftVal, .stringObj rightVal =>
    if operator = "==" then .ok (some (.boolean (leftVal = rightVal) false))
    else if operator = "+" then .ok (some (.stringObj (leftVal ++ rightVal)))
    else .ok (some (newError
      ("unknown operator: " ++ left.type ++ " " ++ operator ++ " " ++ right.type)))
  | _, _ => .panic "interface conversion"

/-- Go pointer equality of two interface values reaching the `==`/`!=`
fallback of `evalInfixExpression`: only the shared singletons (`TRUE`,
`FALSE`, `NULL`) can be the same allocation.  (Aliasing of a composite object
with itself is not modelled; see the file header.) -/
def goPtrEq : Obj → Obj → Bool
  | .boolean a true, .boolean b true => a = b
  | .null, .null => true
  | _, _ => false

/-- `evalInfixExpression`: dispatch on the runtime type pair, in source
order; a nil operand panics at the first `Type()` call of the guard chain. -/
def evalInfixExpression (operator : String) (left right : Option Obj) : POut :=
  match left, right with
  | some l, some r =>
    if l.type = object.INTEGER_OBJ ∧ r.type = object.INTEGER_OBJ then
      evalIntegerInfixExpression operator l r
    else if l.type = object.FLOAT_OBJ ∧ r.type = object.FLOAT_OBJ then
      evalFloatInfixExpression operator l r
    else if (l.type = object.FLOAT_OBJ ∧ r.type = object.INTEGER_OBJ) ∨
        (l.type = object.INTEGER_OBJ ∧ r.type = object.FLOAT_OBJ) then
      evalFloatIntegerInfixExpression operator l r
    else if l.type = object.STRING_OBJ ∧ r.type = object.STRING_OBJ then
      evalStringInfixExpression operator l r
    else if operator = "==" then .ok (some (nativeToBooleanObject (goPtrEq l r)))
    else if operator = "!=" then .ok (some (nativeToBooleanObject (!goPtrEq l r)))
    else if l.type ≠ r.type then .ok (some (newError
      ("type mismatch: " ++ l.type ++ " " ++ operator ++ " " ++ r.type)))
    else .ok (some (newError
      ("unknown operator: " ++ l.type ++ " " ++ operator ++ " " ++ r.type)))
  | _, _ => .panic "runtime error: invalid memory address or nil pointer dereference"

/-- `evalArrayIndexExpression`: both operands already checked by
`evalIndexExpression`'s guard. -/
def evalArrayIndexExpression (array index : Option Obj) : POut :=
  match array, index with
  | some (.array elements), some (.integer idx) =>
    if idx < 0 ∨ idx > (elements.length : Int) - 1 then .ok (some NULL)
    else .ok (elements.getD idx.toNat none)
  | _, _ => .panic "interface conversion"

/-- `evalIndexExpression`: the guard calls `left.Type()` first (nil left
panics); `index.Type()` is only reached when the left is an array (Go `&&`
short-circuits). -/
def evalIndexExpression (left index : Option Obj) : POut :=
  match left with
  | none => .panic "runtime error: invalid memory address or nil pointer dereference"
  | some l =>
    if l.type = object.ARRAY_OBJ then
      match index with
      | none => .panic "runtime error: invalid memory address or nil pointer dereference"
      | some i =>
        if i.type = object.INTEGER_OBJ then evalArrayIndexExpression left index
        else .ok (some (newError ("index operator not supported: " ++ l.type)))
    else .ok (some (newError ("index operator not supported: " ++ l.type)))

/-! ### Builtins (`var builtins` in `src/evaluator/evaluator.go`)

The map holds exactly the three entries `len`, `first`, `last`; each entry's
native closure is defunctionalised into a named function dispatched by
`builtinFn`. -/

/-- The builtin lookup table (`builtins[node.Value]`). -/
def builtins : String → Option Obj
  | "len" => some (.builtin "len")
  | "first" => some (.builtin "first")
  | "last" => some (.builtin "last")
  | _ => none

/-- The `len` builtin's `Fn`: the arity guard, then a type switch on
`args[0]`.  Go `len` of a string is its byte length; the model uses the
character count, which agrees on the ASCII strings every theorem below uses.
A nil argument reaches the switch's default branch and panics at
`args[0].Type()`. -/
def builtinLen (args : List (Option Obj)) : POut :=
  if args.length ≠ 1 then
    .ok (some (newError
      ("wrong number of arguments. got=" ++ toString args.length ++ ", expected=1")))
  else
    match args.getD 0 none with
    | some (.array elements) => .ok (some (.integer elements.length))
    | some (.stringObj value) => .ok (some (.integer value.length))
    | some o => .ok (some (newError ("argument to `len` not supported, got " ++ o.type)))
    | none => .panic "runtime error: invalid memory address or nil pointer dereference"

/-- The `first` builtin's `Fn`: the arity guard, the `ARRAY` type-tag guard,
then the element access.  The final catch-all arm is the Go type assertion
`args[0].(*object.Array)`, unreachable once the tag guard has passed. -/
def builtinFirst (args : List (Option Obj)) : POut :=
  if args.length ≠ 1 then
    .ok (some (newError
      ("wrong number of arguments.\nexpected=1, got=" ++ toString args.length)))
  else
    match args.getD 0 none with
    | none => .panic "runtime error: invalid memory address or nil pointer dereference"
    | some o =>
      if o.type ≠ object.ARRAY_OBJ then
        .ok (some (newError
          ("argument to \"first\" must be an ARRAY type.\ngot " ++ o.type)))
      else
        match o with
        | .array elements =>
          match elements with
          | e :: _ => .ok e
          | [] => .ok (some NULL)
        | _ => .panic "interface conversion"

/-- The `last` builtin's `Fn` (same shape as `first`, reading the final
element). -/
def builtinLast (args : List (Option Obj)) : POut :=
  if args.length ≠ 1 then
    .ok (some (newError
      ("wrong number of arguments.\nexpected=1, got=" ++ toString args.length)))
  else
    match args.getD 0 none with
    | none => .panic "runtime error: invalid memory address or nil pointer dereference"
    | some o =>
      if o.type ≠ object.ARRAY_OBJ then
        .ok (some (newError
          ("argument to \"last\" must be an ARRAY type.\ngot " ++ o.type)))
      else
        match o with
        | .array elements =>
          match elements.getLast? with
          | some e => .ok e
          | none => .ok (some NULL)
        | _ => .panic "interface conversion"

/-- Dispatch a defunctionalised builtin handle to its `Fn` (`fn.Fn(args...)`
in `applyFunction`).  The default arm is unreachable: `Obj.builtin` values
are only created through `builtins`. -/
def builtinFn : String → List (Option Obj) → POut
  | "len", args => builtinLen args
  | "first", args => builtinFirst args
  | "last", args => builtinLast args
  | _, _ => .panic "unknown builtin"

/-- `evalIdentifier`: environment-chain lookup, then the builtin table, then
an `identifier not found` error.  The chain-walk fuel `st.length + 1`
dominates the length of any acyclic outer chain in the store, and every store
the evaluator builds is acyclic (a frame's outer link always points to an
older frame), so the walk is exactly Go's. -/
def evalIdentifier (name : String) (env : Nat) (st : Store) : Option Obj :=
  match envGet (st.length + 1) st env name with
  | some val => val
  | none =>
    match builtins name with
    | some b => some b
    | none => some (newError ("identifier not found: " ++ name))

/-- The parameter-binding loop of `extendFunctionEnv`:
`for paramIdx, param := range fn.Parameters { env.Set(param.Value, args[paramIdx]) }`.
When the parameters outnumber the arguments, `args[paramIdx]` is a Go
index-out-of-range panic, modelled as `none`. -/
def bindParams : List String → List (Option Obj) → Nat → Store → Option Store
  | [], _, _, st => some st
  | param :: ps, arg :: rest, env, st => bindParams ps rest env (envSet st env param arg)
  | _ :: _, [], _, _ => none

/-- `extendFunctionEnv`, taking the `object.Function`'s fields (parameter
names and captured environment pointer). -/
def extendFunctionEnv (parameters : List String) (fnEnv : Nat)
    (args : List (Option Obj)) (st : Store) : Option (Nat × Store) :=
  let fresh := NewEnclosedEnvironment fnEnv st
  match bindParams parameters args fresh.1 fresh.2 with
  | some st' => some (fresh.1, st')
  | none => none

/-! ### The evaluator (`Eval` and its statement/expression loops)

`EvalRes` is the outcome of evaluating a node: a (possibly Go-nil) value
with the updated store, a Go runtime panic, or fuel exhaustion (Go
non-termination).  `ListRes` is the same for `evalExpression`, which yields a
list of values. -/

inductive EvalRes where
  | ok (result : Option Obj) (st : Store)
  | panic (msg : String)
  | timeout

inductive ListRes where
  | ok (results : List (Option Obj)) (st : Store)
  | panic (msg : String)
  | timeout

/-- Lift a pure helper outcome into `EvalRes` at the current store. -/
def pOutToRes (p : POut) (st : Store) : EvalRes :=
  match p with
  | .ok v => .ok v st
  | .panic m => .panic m

mutual

/-- `Eval(node, env)`: the top-level type switch.  `fuel` bounds the total
recursion/iteration depth: every function of this mutual block consumes one
unit on entry and passes the remainder on, so any terminating Go evaluation
is reproduced exactly by every sufficiently large fuel, and the recursion is
structural (the definitions unfold by computation). -/
def Eval : Nat → Node → Nat → Store → EvalRes
  | 0, _, _, _ => .timeout
  | fuel + 1, node, env, st =>
    match node with
    | .program statements => evalProgram fuel statements env st
    | .statement (.exprStmt expression) =>
      match expression with
      | some e => Eval fuel (.expression e) env st
      | none => .ok none st
    | .statement (.blockStmt block) => evalBlockStatement fuel block env st
    | .statement (.returnStmt _ returnValue) =>
      match returnValue with
      | none => .ok (some (.returnValue none)) st
      | some e =>
        match Eval fuel (.expression e) env st with
        | .ok val st' =>
          if isError val then .ok val st'
          else .ok (some (.returnValue val)) st'
        | other => other
    | .statement (.letStmt _ name value) =>
      match value with
      | none => .ok none (envSet st env name none)
      | some e =>
        match Eval fuel (.expression e) env st with
        | .ok val st' =>
          if isError val then .ok val st'
          else .ok none (envSet st' env name val)
        | other => other
    | .expression (.integerLiteral _ value) => .ok (some (.integer value)) st
    | .expression (.floatLiteral _ value) => .ok (some (.float value)) st
    | .expression (.booleanLit _ value) =>
      .ok (some (nativeToBooleanObject value)) st
    | .expression (.prefixExpr operator right) =>
      match Eval fuel (.expression right) env st with
      | .ok rightV st' =>
        if isError rightV then .ok rightV st'
        else pOutToRes (evalPrefixExpression operator rightV) st'
      | other => other
    | .expression (.infixExpr operator left right) =>
      match Eval fuel (.expression left) env st with
      | .ok leftV st1 =>
        if isError leftV then .ok leftV st1
        else
          match Eval fuel (.expression right) env st1 with
          | .ok rightV st2 =>
            if isError rightV then .ok rightV st2
            else pOutToRes (evalInfixExpression operator leftV rightV) st2
          | other => other
      | other => other
    | .expression (.ifExpr condition consequence elseIfs alternative) =>
      evalIfExpression fuel condition consequence elseIfs alternative env st
    | .expression (.identifier value) => .ok (evalIdentifier value env st) st
    | .expression (.funcLit _ parameters body) =>
      .ok (some (.function parameters body env)) st
    | .expression (.callExpr function arguments) =>
      match Eval fuel (.expression function) env st with
      | .ok fnV st1 =>
        if isError fnV then .ok fnV st1
        else
          match evalExpression fuel arguments env st1 with
          | .ok args st2 =>
            if args.length = 1 ∧ isError (args.getD 0 none) then
              .ok (args.getD 0 none) st2
            else applyFunction fuel fnV args st2
          | .panic m => .panic m
          | .timeout => .timeout
      | other => other
    | .expression (.stringLit _ value) => .ok (some (.stringObj value)) st
    | .expression (.arrayLit elements) =>
      match evalExpression fuel elements env st with
      | .ok elems st' =>
        if elems.length = 1 ∧ isError (elems.getD 0 none) then
          .ok (elems.getD 0 none) st'
        else .ok (some (.array elems)) st'
      | .panic m => .panic m
      | .timeout => .timeout
    | .expression (.indexExpr left index) =>
      match Eval fuel (.expression left) env st with
      | .ok leftV st1 =>
        if isError leftV then .ok leftV st1
        else
          match Eval fuel (.expression index) env st1 with
          | .ok indexV st2 =>
            if isError indexV then .ok indexV st2
            else pOutToRes (evalIndexExpression leftV indexV) st2
          | other => other
      | other => other
    | .expression .goNil => .ok none st
termination_by structural fuel _n _e _s => fuel

/-- `evalProgram(statements, env)`: initialises the running `result` to Go
nil and enters the loop. -/
def evalProgram : Nat → List Stmt → Nat → Store → EvalRes
  | 0, _, _, _ => .timeout
  | fuel + 1, statements, env, st => evalProgramLoop fuel statements none env st
termination_by structural fuel _l _e _s => fuel

/-- The statement loop of `evalProgram`: a `ReturnValue` result returns its
inner value, an `Error` result returns as-is, anything else becomes the
running result. -/
def evalProgramLoop : Nat → List Stmt → Option Obj → Nat → Store → EvalRes
  | 0, _, _, _, _ => .timeout
  | _ + 1, [], result, _, st => .ok result st
  | fuel + 1, statement :: rest, _, env, st =>
    match Eval fuel (.statement statement) env st with
    | .ok result st' =>
      match result with
      | some (.returnValue v) => .ok v st'
      | some (.error m) => .ok (some (.error m)) st'
      | r => evalProgramLoop fuel rest r env st'
    | other => other
termination_by structural fuel _l _r _e _s => fuel

/-- `evalBlockStatement(block, env)`. -/
def evalBlockStatement : Nat → Block → Nat → Store → EvalRes
  | 0, _, _, _ => .timeout
  | fuel + 1, block, env, st => evalBlockLoop fuel block.statements none env st
termination_by structural fuel _b _e _s => fuel

/-- The statement loop of `evalBlockStatement`: a non-nil result whose type
tag is `RETURN_VALUE` or `ERROR` is returned *intact* (no unwrap). -/
def evalBlockLoop : Nat → List Stmt → Option Obj → Nat → Store → EvalRes
  | 0, _, _, _, _ => .timeout
  | _ + 1, [], result, _, st => .ok result st
  | fuel + 1, statement :: rest, _, env, st =>
    match Eval fuel (.statement statement) env st with
    | .ok result st' =>
      match result with
      | some r =>
        if r.type = object.RETURN_VALUE_OBJ ∨ r.type = object.ERROR_OBJ then
          .ok (some r) st'
        else evalBlockLoop fuel rest (some r) env st'
      | none => evalBlockLoop fuel rest none env st'
    | other => other
termination_by structural fuel _l _r _e _s => fuel

/-- `evalIfExpression`: only the *initial* condition is checked with
`isError`; the `log.Println` side effect on the missing-alternative path is
dropped. -/
def evalIfExpression :
    Nat → Expr → Block → List ElseIf → Option Block → Nat → Store → EvalRes
  | 0, _, _, _, _, _, _ => .timeout
  | fuel + 1, condition, consequence, elseIfs, alternative, env, st =>
    match Eval fuel (.expression condition) env st with
    | .ok cond st' =>
      if isError cond then .ok cond st'
      else if isTruthy cond then
        Eval fuel (.statement (.blockStmt consequence)) env st'
      else if elseIfs.length > 0 then
        evalElseIfLoop fuel elseIfs alternative env st'
      else
        match alternative with
        | some b => Eval fuel (.statement (.blockStmt b)) env st'
        | none => .ok (some NULL) st'
    | other => other
termination_by structural fuel _c _q _i _a _e _s => fuel

/-- The `else if` loop of `evalIfExpression`: each clause's condition is
evaluated and fed straight to `isTruthy` — there is no `isError` check here. -/
def evalElseIfLoop : Nat → List ElseIf → Option Block → Nat → Store → EvalRes
  | 0, _, _, _, _ => .timeout
  | fuel + 1, [], alternative, env, st =>
    match alternative with
    | some b => Eval fuel (.statement (.blockStmt b)) env st
    | none => .ok (some NULL) st
  | fuel + 1, eif :: rest, alternative, env, st =>
    match Eval fuel (.expression eif.condition) env st with
    | .ok condition st' =>
      if isTruthy condition then
        Eval fuel (.statement (.blockStmt eif.consequence)) env st'
      else evalElseIfLoop fuel rest alternative env st'
    | other => other
termination_by structural fuel _i _a _e _s => fuel

/-- `evalExpression`: left-to-right evaluation of an expression list,
replacing the whole list by the first `Error` encountered. -/
def evalExpression : Nat → List Expr → Nat → Store → ListRes
  | 0, _, _, _ => .timeout
  | _ + 1, [], _, st => .ok [] st
  | fuel + 1, e :: rest, env, st =>
    match Eval fuel (.expression e) env st with
    | .ok evaluated st' =>
      if isError evaluated then .ok [evaluated] st'
      else
        match evalExpression fuel rest env st' with
        | .ok results st'' => .ok (evaluated :: results) st''
        | other => other
    | .panic m => .panic m
    | .timeout => .timeout
termination_by structural fuel _l _e _s => fuel

/-- `applyFunction`: a user function extends its *captured* environment and
unwraps a `ReturnValue` from its body; a builtin dispatches to its `Fn`;
anything else is a `not a function` error (panicking on a nil callee). -/
def applyFunction : Nat → Option Obj → List (Option Obj) → Store → EvalRes
  | 0, _, _, _ => .timeout
  | fuel + 1, fn, args, st =>
    match fn with
    | some (.function parameters body fnEnv) =>
      match extendFunctionEnv parameters fnEnv args st with
      | some (extendedEnv, st') =>
        match Eval fuel (.statement (.blockStmt body)) extendedEnv st' with
        | .ok evaluated st'' => .ok (unwrapReturnValue evaluated) st''
        | other => other
      | none => .panic "runtime error: index out of range"
    | some (.builtin name) => pOutToRes (builtinFn name args) st
    | some f => .ok (some (newError ("not a function: " ++ f.type))) st
    | none => .panic "runtime error: invalid memory address or nil pointer dereference"
termination_by structural fuel _f _a _s => fuel

end

/-! ### AST stringification (`String()` methods in `src/ast/ast.go`)

`exprStringList`/`stmtStringList` are the `for ... range` loops mapping
`String()` over child slices.  `FunctionLiteral.String` and
`ArrayLiteral.String` build their child-string slice with
`make([]string, len(xs))` followed by `append`, so the joined list starts
with one empty string per child — reproduced verbatim
(`List.replicate … ""`).  `CallExpression.String` builds an argument slice
but only ever writes the callee's string — also reproduced verbatim.
`IfExpression.String` ignores the `ElseIfs` field, as the source does. -/

mutual

def exprString : Expr → String
  | .identifier value => value
  | .integerLiteral lit _ => lit
  | .floatLiteral lit _ => lit
  | .booleanLit lit _ => lit
  | .stringLit lit _ => lit
  | .prefixExpr op right => "(" ++ op ++ exprString right ++ ")"
  | .infixExpr op left right =>
    "(" ++ exprString left ++ " " ++ op ++ " " ++ exprString right ++ ")"
  | .ifExpr condition consequence _elseIfs alternative =>
    "if" ++ exprString condition ++ " " ++ blockString consequence ++
      (match alternative with
       | some b => "else " ++ blockString b
       | none => "")
  | .funcLit tokLit parameters body =>
    tokLit ++ "(" ++
      String.intercalate ", " (List.replicate parameters.length "" ++ parameters) ++
      ")" ++ blockString body
  | .callExpr function _arguments => exprString function
  | .arrayLit elements =>
    "[" ++
      String.intercalate ", "
        (List.replicate elements.length "" ++ exprStringList elements) ++ "]"
  | .indexExpr left index =>
    -- Modelled from the spec: `IndexExpression` is listed among the AST
    -- nodes with a canonical rendering, but its `String()` method is not in
    -- the provided `ast.go`; the conventional parenthesised-bracket form is
    -- used.  No claim depends on it.
    "(" ++ exprString left ++ "[" ++ exprString index ++ "])"
  | .goNil =>
    -- Go would panic calling `String()` through a nil interface; never
    -- reached by any theorem below.
    "PANIC: nil expression"

def exprStringList : List Expr → List String
  | [] => []
  | e :: rest => exprString e :: exprStringList rest

def elseIfString : ElseIf → String
  | .mk condition consequence =>
    "else if" ++ exprString condition ++ " " ++ blockString consequence

def blockString : Block → String
  | .mk statements => String.join (stmtStringList statements)

def stmtString : Stmt → String
  | .letStmt tokLit name value =>
    tokLit ++ " " ++ name ++ " = " ++
      (match value with
       | some e => exprString e
       | none => "") ++ ";"
  | .returnStmt tokLit returnValue =>
    tokLit ++ " " ++
      (match returnValue with
       | some e => exprString e
       | none => "") ++ ";"
  | .exprStmt expression =>
    match expression with
    | some e => exprString e
    | none => ""
  | .blockStmt block => blockString block

def stmtStringList : List Stmt → List String
  | [] => []
  | s :: rest => stmtString s :: stmtStringList rest

end

/-- `Program.String()`: the concatenation of its statements' strings. -/
def programString (statements : List Stmt) : String :=
  String.join (stmtStringList statements)

/-! ### Tokens (`src/token/token.go`, first revision) -/

namespace token

def ILLEGAL : String := "ILLEGAL"
def EOF : String := "EOF"
def IDENT : String := "IDENT"
def INT : String := "INT"
def ASSIGN : String := "="
def PLUS : String := "+"
def MINUS : String := "-"
def BANG : String := "!"
def ASTERISK : String := "*"
def SLASH : String := "/"
def LT : String := "<"
def GT : String := ">"
def EQ : String := "=="
def NOT_EQ : String := "!="
def COMMA : String := ","
def SEMICOLON : String := ";"
def LPAREN : String := "("
def RPAREN : String := ")"
def LBRACE : String := "\x7b"

/-- `RBRACE` really is defined as the same string as `LBRACE` in every
revision of `token.go` (`RBRACE = "{"`) — reproduced verbatim; nothing in
the embedded parser revision consults it. -/
def RBRACE : String := "\x7b"

def FUNCTION : String := "FUNCTION"
def LET : String := "LET"
def TRUE : String := "TRUE"
def FALSE : String := "FALSE"
def IF : String := "IF"
def ELSE : String := "ELSE"
def RETURN : String := "RETURN"

/-- Modelled from the spec: the lexer revision in `part_002` emits `%` as
`token.MOD` and dotted number literals as `token.FLOAT`, but the matching
`token.go` revision is not among the provided sources; the spec's precedence
table (`%` multiplicative) and float-literal lexing fix these two constants. -/
def MOD : String := "%"

/-- Modelled from the spec: see `token.MOD`. -/
def FLOAT : String := "FLOAT"

/-- Go `token.Token`. -/
structure Token where
  type : String
  literal : String

/-- The `keywords` map of the full `token.go` revision. -/
def keywords : String → Option String
  | "fn" => some FUNCTION
  | "let" => some LET
  | "true" => some TRUE
  | "false" => some FALSE
  | "if" => some IF
  | "else" => some ELSE
  | "return" => some RETURN
  | _ => none

/-- `token.LookupIdentifier`. -/
def LookupIdentifier (identifier : String) : String :=
  match keywords identifier with
  | some tok => tok
  | none => IDENT

end token

/-! ### Lexer (`src/lexer`, full revision in `part_002`)

The input is the source text's character list (ASCII, matching the byte-wise
Go scan); `position`/`readPosition`/`ch` are exactly the Go fields, with the
NUL byte for end of input.  The `for` loops (`skipWhiteSpace`,
`readIdentifier`, `readNumber`) take fuel; each loop consumes at most one
unit per character, so any fuel beyond the input length reproduces the Go
run exactly. -/

def nulChar : Char := Char.ofNat 0

structure Lexer where
  input : List Char
  position : Nat
  readPosition : Nat
  ch : Char

/-- `Lexer.readChar`. -/
def Lexer.readChar (l : Lexer) : Lexer :=
  { l with
    ch := if l.readPosition ≥ l.input.length then nulChar
          else l.input.getD l.readPosition nulChar
    position := l.readPosition
    readPosition := l.readPosition + 1 }

/-- `lexer.New`. -/
def Lexer.New (input : List Char) : Lexer :=
  Lexer.readChar { input := input, position := 0, readPosition := 0, ch := nulChar }

/-- `Lexer.peekChar`. -/
def Lexer.peekChar (l : Lexer) : Char :=
  if l.readPosition ≥ l.input.length then nulChar
  else l.input.getD l.readPosition nulChar

/-- `isLetter`. -/
def isLetter (ch : Char) : Bool :=
  (Char.ofNat 97 ≤ ch ∧ ch ≤ Char.ofNat 122) ∨
    (Char.ofNat 65 ≤ ch ∧ ch ≤ Char.ofNat 90) ∨ ch = Char.ofNat 95

/-- `isDigit`. -/
def isDigit (ch : Char) : Bool :=
  Char.ofNat 48 ≤ ch ∧ ch ≤ Char.ofNat 57

/-- `newToken`. -/
def newToken (tokenType : String) (ch : Char) : token.Token :=
  ⟨tokenType, String.mk [ch]⟩

/-- The `for isLetter(l.ch)` loop of `Lexer.readIdentifier`. -/
def Lexer.readLetters : Nat → Lexer → Lexer
  | 0, l => l
  | fuel + 1, l => if isLetter l.ch then Lexer.readLetters fuel l.readChar else l

/-- `Lexer.readIdentifier`: returns `l.input[position:l.position]`. -/
def Lexer.readIdentifier (fuel : Nat) (l : Lexer) : String × Lexer :=
  let start := l.position
  let l' := Lexer.readLetters fuel l
  (String.mk ((l'.input.drop start).take (l'.position - start)), l')

/-- The `for isDigit(l.ch)` loop of `Lexer.readNumber`. -/
def Lexer.readDigits : Nat → Lexer → Lexer
  | 0, l => l
  | fuel + 1, l => if isDigit l.ch then Lexer.readDigits fuel l.readChar else l

/-- `Lexer.readNumber`: digits, then optionally a dot followed by a digit
switches the token type to `FLOAT` and continues with more digits. -/
def Lexer.readNumber (fuel : Nat) (l : Lexer) : String × String × Lexer :=
  let start := l.position
  let l1 := Lexer.readDigits fuel l
  let (tokenType, l2) :=
    if l1.ch = Char.ofNat 46 ∧ isDigit l1.peekChar then
      (token.FLOAT, Lexer.readDigits fuel l1.readChar)
    else (token.INT, l1)
  (String.mk ((l2.input.drop start).take (l2.position - start)), tokenType, l2)

/-- `Lexer.skipWhiteSpace`. -/
def Lexer.skipWhiteSpace : Nat → Lexer → Lexer
  | 0, l => l
  | fuel + 1, l =>
    if l.ch = Char.ofNat 32 ∨ l.ch = Char.ofNat 9 ∨ l.ch = Char.ofNat 10 ∨
        l.ch = Char.ofNat 13 then
      Lexer.skipWhiteSpace fuel l.readChar
    else l

/-- `Lexer.NextToken`: the character switch.  Single-character branches fall
through to a final `readChar`; the identifier/number default branches return
early without it, exactly as in the source. -/
def Lexer.NextToken (fuel : Nat) (l0 : Lexer) : token.Token × Lexer :=
  let l := Lexer.skipWhiteSpace fuel l0
  if l.ch = Char.ofNat 61 then  -- '='
    if l.peekChar = Char.ofNat 61 then
      let currentCharacter := l.ch
      let l' := l.readChar
      (⟨token.EQ, String.mk [currentCharacter] ++ String.mk [l'.ch]⟩, l'.readChar)
    else (newToken token.ASSIGN l.ch, l.readChar)
  else if l.ch = Char.ofNat 59 then (newToken token.SEMICOLON l.ch, l.readChar)
  else if l.ch = Char.ofNat 40 then (newToken token.LPAREN l.ch, l.readChar)
  else if l.ch = Char.ofNat 41 then (newToken token.RPAREN l.ch, l.readChar)
  else if l.ch = Char.ofNat 44 then (newToken token.COMMA l.ch, l.readChar)
  else if l.ch = Char.ofNat 43 then (newToken token.PLUS l.ch, l.readChar)
  else if l.ch = Char.ofNat 123 then (newToken token.LBRACE l.ch, l.readChar)
  else if l.ch = Char.ofNat 125 then (newToken token.RBRACE l.ch, l.readChar)
  else if l.ch = Char.ofNat 45 then (newToken token.MINUS l.ch, l.readChar)
  else if l.ch = Char.ofNat 33 then  -- '!'
    if l.peekChar = Char.ofNat 61 then
      let currentCharacter := l.ch
      let l' := l.readChar
      (⟨token.NOT_EQ, String.mk [currentCharacter] ++ String.mk [l'.ch]⟩, l'.readChar)
    else (newToken token.BANG l.ch, l.readChar)
  else if l.ch = Char.ofNat 47 then (newToken token.SLASH l.ch, l.readChar)
  else if l.ch = Char.ofNat 37 then (newToken token.MOD l.ch, l.readChar)
  else if l.ch = Char.ofNat 42 then (newToken token.ASTERISK l.ch, l.readChar)
  else if l.ch = Char.ofNat 60 then (newToken token.LT l.ch, l.readChar)
  else if l.ch = Char.ofNat 62 then (newToken token.GT l.ch, l.readChar)
  else if l.ch = nulChar then (⟨token.EOF, ""⟩, l.readChar)
  else if isLetter l.ch then
    let (literal, l') := Lexer.readIdentifier fuel l
    (⟨token.LookupIdentifier literal, literal⟩, l')
  else if isDigit l.ch then
    let (literal, tokenType, l') := Lexer.readNumber fuel l
    (⟨tokenType, literal⟩, l')
  else (newToken token.ILLEGAL l.ch, l.readChar)

/-! ### Parser (`src/parser/parser.go`, second revision)

This parser revision registers prefix handlers for identifiers, integer
literals, `!`/`-` and the boolean keywords, and one infix handler
(`parseInfixExpression`) for each of `+ - / * == != < >`; the handler maps
built in `parser.New` are embedded as the corresponding token-kind dispatch
inside `parseExpression`.  `fuel` bounds loop iterations and recursion depth
(and is also passed to the lexer); this revision's `parseLetStatement` and
`parseReturnStatement` spin forever when no semicolon follows (the lexer
repeats `EOF` tokens), which surfaces as fuel exhaustion. -/

/-- The precedence constants (`iota` block); `PREFIX`/`CALL` are renamed
with a suffix here but keep their values 6 and 7. -/
def LOWEST : Nat := 1
def EQUALS : Nat := 2
def LESSGREATER : Nat := 3
def SUM : Nat := 4
def PRODUCT : Nat := 5
def PREFIX_PRECEDENCE : Nat := 6
def CALL_PRECEDENCE : Nat := 7

/-- The `precedences` map. -/
def precedences : String → Option Nat := fun t =>
  if t = token.EQ then some EQUALS
  else if t = token.NOT_EQ then some EQUALS
  else if t = token.LT then some LESSGREATER
  else if t = token.GT then some LESSGREATER
  else if t = token.PLUS then some SUM
  else if t = token.MINUS then some SUM
  else if t = token.SLASH then some PRODUCT
  else if t = token.ASTERISK then some PRODUCT
  else none

structure Parser where
  lexer : Lexer
  curToken : token.Token
  peekToken : token.Token
  errors : List String

/-- `Parser.nextToken`. -/
def Parser.nextToken (fuel : Nat) (p : Parser) : Parser :=
  let (tok, l') := Lexer.NextToken fuel p.lexer
  { p with lexer := l', curToken := p.peekToken, peekToken := tok }

/-- `parser.New`: pulls the first two tokens. -/
def Parser.New (fuel : Nat) (l : Lexer) : Parser :=
  let (t1, l1) := Lexer.NextToken fuel l
  let (t2, l2) := Lexer.NextToken fuel l1
  { lexer := l2, curToken := t1, peekToken := t2, errors := [] }

def Parser.peekTokenIs (p : Parser) (t : String) : Bool := p.peekToken.type = t

def Parser.curTokenIs (p : Parser) (t : String) : Bool := p.curToken.type = t

/-- `Parser.peekPrecedence`. -/
def Parser.peekPrecedence (p : Parser) : Nat :=
  match precedences p.peekToken.type with
  | some v => v
  | none => LOWEST

/-- `Parser.curPrecedence`. -/
def Parser.curPrecedence (p : Parser) : Nat :=
  match precedences p.curToken.type with
  | some v => v
  | none => LOWEST

/-- `Parser.peekError`. -/
def Parser.peekError (p : Parser) (t : String) : Parser :=
  { p with errors := p.errors ++
      ["expected next token to be " ++ t ++ ", got " ++ p.peekToken.type ++ " instead"] }

/-- `Parser.noPrefixParseFnError`. -/
def Parser.noPrefixParseFnError (p : Parser) (t : String) : Parser :=
  { p with errors := p.errors ++ ["no prefix parse function for " ++ t ++ " found"] }

/-- `Parser.expectPeek`. -/
def Parser.expectPeek (fuel : Nat) (p : Parser) (t : String) : Bool × Parser :=
  if p.peekTokenIs t then (true, p.nextToken fuel)
  else (false, p.peekError t)

/-- `Parser.parseIdentifier`. -/
def Parser.parseIdentifier (p : Parser) : Expr :=
  .identifier p.curToken.literal

/-- Go `strconv.ParseInt(s, 0, 64)` restricted to the all-digit strings the
lexer can produce: plain decimal, except that a leading `0` with more digits
selects octal (an `8`/`9` digit is then an error), with the `int64` range
check. -/
def goParseIntBase0 (s : String) : Option Int :=
  match s.data with
  | [] => none
  | [c] => if isDigit c then some ((c.toNat - 48 : Nat) : Int) else none
  | c :: rest =>
    if c = Char.ofNat 48 then
      match digitsToNat 8 rest with
      | some n => if n < 2 ^ 63 then some (n : Int) else none
      | none => none
    else
      match digitsToNat 10 (c :: rest) with
      | some n => if n < 2 ^ 63 then some (n : Int) else none
      | none => none
where
  digitsToNat (base : Nat) : List Char → Option Nat
    | [] => some 0
    | d :: ds =>
      if isDigit d ∧ d.toNat - 48 < base then
        match digitsToNat base ds with
        | some n => some ((d.toNat - 48) * base ^ ds.length + n)
        | none => none
      else none

/-- `Parser.parseIntegerLiteral`. -/
def Parser.parseIntegerLiteral (p : Parser) : Option Expr × Parser :=
  match goParseIntBase0 p.curToken.literal with
  | some value => (some (.integerLiteral p.curToken.literal value), p)
  | none =>
    (none, { p with errors := p.errors ++
        ["could not parse \"" ++ p.curToken.literal ++ "\" as integer"] })

/-- Go `strconv.ParseBool`. -/
def goParseBool (s : String) : Option Bool :=
  if s = "1" ∨ s = "t" ∨ s = "T" ∨ s = "TRUE" ∨ s = "true" ∨ s = "True" then
    some true
  else if s = "0" ∨ s = "f" ∨ s = "F" ∨ s = "FALSE" ∨ s = "false" ∨ s = "False" then
    some false
  else none

/-- `Parser.parseBoolean`. -/
def Parser.parseBoolean (p : Parser) : Option Expr × Parser :=
  match goParseBool p.curToken.literal with
  | some value => (some (.booleanLit p.curToken.literal value), p)
  | none =>
    (none, { p with errors := p.errors ++
        ["could not parse \"" ++ p.curToken.literal ++ "\" as boolean"] })

mutual

/-- `Parser.parseExpression`: prefix-handler dispatch followed by the
infix loop.  A missing prefix handler records the error and returns nil
before the loop, as in the source. -/
def parseExpression : Nat → Nat → Parser → Option Expr × Parser
  | 0, _, p => (none, p)
  | fuel + 1, precedence, p =>
    if p.curToken.type = token.IDENT then
      parseExpressionLoop fuel precedence (some (p.parseIdentifier)) p
    else if p.curToken.type = token.INT then
      let (leftExp, p') := p.parseIntegerLiteral
      parseExpressionLoop fuel precedence leftExp p'
    else if p.curToken.type = token.BANG ∨ p.curToken.type = token.MINUS then
      let (leftExp, p') := parsePrefixExpression fuel p
      parseExpressionLoop fuel precedence leftExp p'
    else if p.curToken.type = token.TRUE ∨ p.curToken.type = token.FALSE then
      let (leftExp, p') := p.parseBoolean
      parseExpressionLoop fuel precedence leftExp p'
    else (none, p.noPrefixParseFnError p.curToken.type)

/-- The `for !p.peekTokenIs(token.SEMICOLON) && precedence < p.peekPrecedence()`
loop of `parseExpression`; the registered infix handlers are the eight
operator token kinds, everything else returns the current left expression. -/
def parseExpressionLoop : Nat → Nat → Option Expr → Parser → Option Expr × Parser
  | 0, _, leftExp, p => (leftExp, p)
  | fuel + 1, precedence, leftExp, p =>
    if ¬p.peekTokenIs token.SEMICOLON ∧ precedence < p.peekPrecedence then
      if p.peekToken.type = token.PLUS ∨ p.peekToken.type = token.MINUS ∨
          p.peekToken.type = token.SLASH ∨ p.peekToken.type = token.ASTERISK ∨
          p.peekToken.type = token.EQ ∨ p.peekToken.type = token.NOT_EQ ∨
          p.peekToken.type = token.LT ∨ p.peekToken.type = token.GT then
        let p' := p.nextToken (fuel + 1)
        let (newLeft, p'') := parseInfixExpression fuel leftExp p'
        parseExpressionLoop fuel precedence (some newLeft) p''
      else (leftExp, p)
    else (leftExp, p)

/-- `Parser.parseInfixExpression` (a nil left or right sub-expression is the
`Expr.goNil` node). -/
def parseInfixExpression (fuel : Nat) (left : Option Expr) (p : Parser) :
    Expr × Parser :=
  match fuel with
  | 0 => (.infixExpr p.curToken.literal (left.getD .goNil) .goNil, p)
  | fuel + 1 =>
    let operator := p.curToken.literal
    let precedence := p.curPrecedence
    let p' := p.nextToken (fuel + 1)
    let (right, p'') := parseExpression fuel precedence p'
    (.infixExpr operator (left.getD .goNil) (right.getD .goNil), p'')

/-- `Parser.parsePrefixExpression`. -/
def parsePrefixExpression (fuel : Nat) (p : Parser) : Option Expr × Parser :=
  match fuel with
  | 0 => (none, p)
  | fuel + 1 =>
    let operator := p.curToken.literal
    let p' := p.nextToken (fuel + 1)
    let (right, p'') := parseExpression fuel PREFIX_PRECEDENCE p'
    (some (.prefixExpr operator (right.getD .goNil)), p'')

end

/-- `Parser.parseExpressionStatement`. -/
def Parser.parseExpressionStatement (fuel : Nat) (p : Parser) :
    Option Stmt × Parser :=
  let (expression, p1) := parseExpression fuel LOWEST p
  let p2 := if p1.peekTokenIs token.SEMICOLON then p1.nextToken fuel else p1
  (some (.exprStmt expression), p2)

/-- The `for !p.curTokenIs(token.SEMICOLON) { p.nextToken() }` loop shared by
`parseLetStatement` and `parseReturnStatement`. -/
def Parser.skipToSemicolon : Nat → Parser → Parser
  | 0, p => p
  | fuel + 1, p =>
    if p.curTokenIs token.SEMICOLON then p
    else Parser.skipToSemicolon fuel (p.nextToken (fuel + 1))

/-- `Parser.parseLetStatement` (this revision never parses the bound value:
it records the name, then skips to the semicolon, leaving `Value` nil). -/
def Parser.parseLetStatement (fuel : Nat) (p : Parser) : Option Stmt × Parser :=
  let tokLit := p.curToken.literal
  let (ok1, p1) := p.expectPeek fuel token.IDENT
  if ¬ok1 then (none, p1)
  else
    let name := p1.curToken.literal
    let (ok2, p2) := p1.expectPeek fuel token.ASSIGN
    if ¬ok2 then (none, p2)
    else (some (.letStmt tokLit name none), Parser.skipToSemicolon fuel p2)

/-- `Parser.parseReturnStatement` (value likewise skipped, `ReturnValue`
left nil). -/
def Parser.parseReturnStatement (fuel : Nat) (p : Parser) : Option Stmt × Parser :=
  let tokLit := p.curToken.literal
  let p1 := p.nextToken fuel
  (some (.returnStmt tokLit none), Parser.skipToSemicolon fuel p1)

/-- `Parser.parseStatement`. -/
def Parser.parseStatement (fuel : Nat) (p : Parser) : Option Stmt × Parser :=
  if p.curToken.type = token.LET then p.parseLetStatement fuel
  else if p.curToken.type = token.RETURN then p.parseReturnStatement fuel
  else p.parseExpressionStatement fuel

/-- The `for p.curToken.Type != token.EOF` loop of `Parser.ParseProgram`
(nil statements are skipped). -/
def ParseProgramLoop : Nat → Parser → List Stmt × Parser
  | 0, p => ([], p)
  | fuel + 1, p =>
    if p.curToken.type = token.EOF then ([], p)
    else
      let (statement, p1) := p.parseStatement fuel
      let p2 := p1.nextToken fuel
      let (rest, p3) := ParseProgramLoop fuel p2
      (statement.toList ++ rest, p3)

/-- `Parser.ParseProgram`. -/
def ParseProgram (fuel : Nat) (p : Parser) : List Stmt × Parser :=
  ParseProgramLoop fuel p

/-! ### Concrete-run harness and example programs

`EvalTop` mirrors the test harness `testEval` (`evaluator_test.go`): a fresh
top-level environment, then `Eval` on the program node.  `EvalRes.value`
projects the resulting value out of an `ok` outcome, so concrete theorems
need not spell out the final store. -/

/-- Evaluate a program from a fresh empty environment (the `testEval`
harness). -/
def EvalTop (fuel : Nat) (statements : List Stmt) : EvalRes :=
  Eval fuel (.program statements) (NewEnvironment []).1 (NewEnvironment []).2

/-- The value of an `ok` outcome (`none` for panic/timeout). -/
def EvalRes.value : EvalRes → Option (Option Obj)
  | .ok v _ => some v
  | _ => none

/-- The program `1 / 0;`. -/
def divByZeroProgram : List Stmt :=
  [.exprStmt (some (.infixExpr "/" (.integerLiteral "1" 1) (.integerLiteral "0" 0)))]

/-- The program `1 % 0;`. -/
def modByZeroProgram : List Stmt :=
  [.exprStmt (some (.infixExpr "%" (.integerLiteral "1" 1) (.integerLiteral "0" 0)))]

/-- The program `fn(x, y) { x + y }(1);` — a two-parameter function called
with a single evaluated argument. -/
def shortCallProgram : List Stmt :=
  [.exprStmt (some (.callExpr
    (.funcLit "fn" ["x", "y"]
      (.mk [.exprStmt (some (.infixExpr "+" (.identifier "x") (.identifier "y")))]))
    [.integerLiteral "1" 1]))]

/-- The program `if (false) { 10 } else if (true + true) { 11 } else { 12 };`
whose `else if` condition evaluates to the Error
`unknown operator: BOOLEAN + BOOLEAN`. -/
def elseIfErrorProgram : List Stmt :=
  [.exprStmt (some (.ifExpr (.booleanLit "false" false)
    (.mk [.exprStmt (some (.integerLiteral "10" 10))])
    [.mk (.infixExpr "+" (.booleanLit "true" true) (.booleanLit "true" true))
      (.mk [.exprStmt (some (.integerLiteral "11" 11))])]
    (some (.mk [.exprStmt (some (.integerLiteral "12" 12))]))))]

/-- The program `("a" == "a") == true;`. -/
def stringEqSingletonProgram : List Stmt :=
  [.exprStmt (some (.infixExpr "=="
    (.infixExpr "==" (.stringLit "a" "a") (.stringLit "a" "a"))
    (.booleanLit "true" true)))]

/-- The closure program
`let newAdder = fn(x) { fn(y) { x + y }; }; let addTwo = newAdder(2); addTwo(2);`. -/
def closureProgram : List Stmt :=
  [ .letStmt "let" "newAdder" (some (.funcLit "fn" ["x"]
      (.mk [.exprStmt (some (.funcLit "fn" ["y"]
        (.mk [.exprStmt (some (.infixExpr "+" (.identifier "x") (.identifier "y")))])))]))),
    .letStmt "let" "addTwo" (some (.callExpr (.identifier "newAdder")
      [.integerLiteral "2" 2])),
    .exprStmt (some (.callExpr (.identifier "addTwo") [.integerLiteral "2" 2])) ]

/-- The round-trip source text of the precedence test. -/
def roundTripInput : String := "a + b * c + d / e - f"

/-- Lex and parse a source text with the given fuel: the parsed statement
list and the final parser state (for its error list). -/
def parseSource (fuel : Nat) (input : String) : List Stmt × Parser :=
  ParseProgram fuel (Parser.New fuel (Lexer.New input.data))

/-! ## Theorems -/

/-- Binding fewer arguments than parameters reaches `args[paramIdx]` out of
range: the loop panics. -/
theorem bindParams_none (ps : List String) (args : List (Option Obj))
    (env : Nat) (st : Store) (h : args.length < ps.length) :
    bindParams ps args env st = none := by
  induction ps generalizing args st with
  | nil => simp at h
  | cons p pt ih =>
    cases args with
    | nil => rfl
    | cons a rest =>
      simp only [bindParams]
      exact ih rest (envSet st env p a) (by simpa using Nat.lt_of_succ_lt_succ h)

/-- C1 counterexample: evaluating `1 / 0;` (or `1 % 0;`) aborts with the Go
integer-divide-by-zero runtime panic rather than producing an Error value,
and calling the two-parameter function `fn(x, y) { x + y }` with one argument
aborts with the index-out-of-range panic from the parameter-binding loop. -/
theorem C1_counterexample :
    EvalTop 20 divByZeroProgram = .panic "runtime error: integer divide by zero" ∧
    EvalTop 20 modByZeroProgram = .panic "runtime error: integer divide by zero" ∧
    EvalTop 20 shortCallProgram = .panic "runtime error: index out of range" :=
  ⟨rfl, rfl, rfl⟩

/-- C1 (amended): evaluation is not panic-free: an integer division or
modulo whose right operand is `Integer 0` panics the host process (there is
no zero guard before Go's `/`/`%`), and calling a user Function with fewer
evaluated arguments than declared parameters panics in `extendFunctionEnv`'s
positional-binding loop (`args[paramIdx]` out of range) — neither failure
produces an Error value. -/
theorem C1_division_by_zero_and_short_call_panic :
    (∀ a : Int, evalIntegerInfixExpression "/" (.integer a) (.integer 0) =
      .panic "runtime error: integer divide by zero") ∧
    (∀ a : Int, evalIntegerInfixExpression "%" (.integer a) (.integer 0) =
      .panic "runtime error: integer divide by zero") ∧
    (∀ (parameters : List String) (fnEnv : Nat) (args : List (Option Obj))
       (st : Store), args.length < parameters.length →
      extendFunctionEnv parameters fnEnv args st = none) ∧
    (∀ (fuel : Nat) (parameters : List String) (body : Block) (fnEnv : Nat)
       (args : List (Option Obj)) (st : Store),
      args.length < parameters.length →
      applyFunction (fuel + 1) (some (.function parameters body fnEnv)) args st =
        .panic "runtime error: index out of range") := by
  refine ⟨fun a => rfl, fun a => rfl, fun parameters fnEnv args st h => ?_,
    fun fuel parameters body fnEnv args st h => ?_⟩
  · simp [extendFunctionEnv, bindParams_none _ _ _ _ h]
  · have hext : extendFunctionEnv parameters fnEnv args st = none := by
      simp [extendFunctionEnv, bindParams_none _ _ _ _ h]
    simp [applyFunction, hext]

/-- C1 witness: the panics at concrete inputs `7 / 0`, `7 % 0` and a
two-parameter function applied to one argument. -/
theorem C1_witness :
    evalIntegerInfixExpression "/" (.integer 7) (.integer 0) =
      .panic "runtime error: integer divide by zero" ∧
    evalIntegerInfixExpression "%" (.integer 7) (.integer 0) =
      .panic "runtime error: integer divide by zero" ∧
    ([some (.integer 1)] : List (Option Obj)).length < (["x", "y"] : List String).length ∧
    extendFunctionEnv ["x", "y"] 0 [some (.integer 1)] [] = none ∧
    applyFunction 5 (some (.function ["x", "y"] (.mk []) 0)) [some (.integer 1)] [] =
      .panic "runtime error: index out of range" :=
  ⟨C1_division_by_zero_and_short_call_panic.1 7,
   C1_division_by_zero_and_short_call_panic.2.1 7,
   by decide,
   C1_division_by_zero_and_short_call_panic.2.2.1 ["x", "y"] 0 [some (.integer 1)] []
     (by decide),
   C1_division_by_zero_and_short_call_panic.2.2.2 4 ["x", "y"] (.mk []) 0
     [some (.integer 1)] [] (by decide)⟩

/-- C3 counterexample: in
`if (false) { 10 } else if (true + true) { 11 } else { 12 }` the `else if`
condition evaluates to the Error `unknown operator: BOOLEAN + BOOLEAN`, yet
the whole expression evaluates to `Integer 11` — the Error is treated as a
truthy condition and that branch's consequence *is* evaluated, contradicting
the claim that the if-expression yields the Error and evaluates no
consequence. -/
theorem C3_counterexample :
    (EvalTop 20 elseIfErrorProgram).value = some (some (.integer 11)) ∧
    (Obj.integer 11).type ≠ object.ERROR_OBJ :=
  ⟨rfl, by decide⟩

/-- C3 (amended): an Error from the *initial* condition short-circuits the
whole if-expression to that Error with no branch evaluated; the `else if`
conditions are tried in source order and the first truthy one's consequence
is taken — but an Error produced by an `else if` condition is not
short-circuited: an Error value is truthy (it is none of the three
singletons), so that clause's consequence is evaluated. -/
theorem C3_elseif_condition_error_not_shortcircuited :
    (∀ (fuel : Nat) (condition : Expr) (consequence : Block)
       (elseIfs : List ElseIf) (alternative : Option Block) (env : Nat)
       (st : Store) (cond : Option Obj) (st' : Store),
      Eval fuel (.expression condition) env st = .ok cond st' →
      isError cond = true →
      evalIfExpression (fuel + 1) condition consequence elseIfs alternative env st =
        .ok cond st') ∧
    (∀ (fuel : Nat) (condition : Expr) (consequence : Block)
       (elseIfs : List ElseIf) (alternative : Option Block) (env : Nat)
       (st : Store) (cond : Option Obj) (st' : Store),
      Eval fuel (.expression condition) env st = .ok cond st' →
      isError cond = false → isTruthy cond = false → 0 < elseIfs.length →
      evalIfExpression (fuel + 1) condition consequence elseIfs alternative env st =
        evalElseIfLoop fuel elseIfs alternative env st') ∧
    (∀ (fuel : Nat) (eif : ElseIf) (rest : List ElseIf)
       (alternative : Option Block) (env : Nat) (st : Store) (c : Option Obj)
       (st' : Store),
      Eval fuel (.expression eif.condition) env st = .ok c st' →
      isTruthy c = true →
      evalElseIfLoop (fuel + 1) (eif :: rest) alternative env st =
        Eval fuel (.statement (.blockStmt eif.consequence)) env st') ∧
    (∀ (fuel : Nat) (eif : ElseIf) (rest : List ElseIf)
       (alternative : Option Block) (env : Nat) (st : Store) (c : Option Obj)
       (st' : Store),
      Eval fuel (.expression eif.condition) env st = .ok c st' →
      isTruthy c = false →
      evalElseIfLoop (fuel + 1) (eif :: rest) alternative env st =
        evalElseIfLoop fuel rest alternative env st') ∧
    (∀ m : String, isError (some (.error m)) = true ∧
      isTruthy (some (.error m)) = true) := by
  refine ⟨fun fuel condition consequence elseIfs alternative env st cond st' h1 h2 => ?_,
    fun fuel condition consequence elseIfs alternative env st cond st' h1 h2 h3 h4 => ?_,
    fun fuel eif rest alternative env st c st' h1 h2 => ?_,
    fun fuel eif rest alternative env st c st' h1 h2 => ?_,
    fun m => ⟨rfl, rfl⟩⟩
  · simp [evalIfExpression, h1, h2]
  · simp [evalIfExpression, h1, h2, h3, h4]
  · simp [evalElseIfLoop, h1, h2]
  · simp [evalElseIfLoop, h1, h2]

/-- C3 witness: the general branches instantiated at concrete inputs: an
erroring initial condition short-circuits; a false initial condition with an
erroring (hence truthy) `else if` condition evaluates that clause's
consequence. -/
theorem C3_witness :
    evalIfExpression 6
      (.infixExpr "+" (.booleanLit "true" true) (.booleanLit "true" true))
      (.mk [.exprStmt (some (.integerLiteral "10" 10))]) [] none
      0 [⟨[], none⟩] =
      .ok (some (.error "unknown operator: BOOLEAN + BOOLEAN")) [⟨[], none⟩] ∧
    evalElseIfLoop 6
      [.mk (.infixExpr "+" (.booleanLit "true" true) (.booleanLit "true" true))
        (.mk [.exprStmt (some (.integerLiteral "11" 11))])]
      (some (.mk [.exprStmt (some (.integerLiteral "12" 12))]))
      0 [⟨[], none⟩] =
      Eval 5 (.statement (.blockStmt (.mk [.exprStmt (some (.integerLiteral "11" 11))])))
        0 [⟨[], none⟩] ∧
    isError (some (.error "unknown operator: BOOLEAN + BOOLEAN")) = true ∧
    isTruthy (some (.error "unknown operator: BOOLEAN + BOOLEAN")) = true :=
  ⟨C3_elseif_condition_error_not_shortcircuited.1 5
      (.infixExpr "+" (.booleanLit "true" true) (.booleanLit "true" true))
      (.mk [.exprStmt (some (.integerLiteral "10" 10))]) [] none
      0 [⟨[], none⟩] (some (.error "unknown operator: BOOLEAN + BOOLEAN")) [⟨[], none⟩]
      rfl rfl,
   C3_elseif_condition_error_not_shortcircuited.2.2.1 5
      (.mk (.infixExpr "+" (.booleanLit "true" true) (.booleanLit "true" true))
        (.mk [.exprStmt (some (.integerLiteral "11" 11))])) []
      (some (.mk [.exprStmt (some (.integerLiteral "12" 12))]))
      0 [⟨[], none⟩] (some (.error "unknown operator: BOOLEAN + BOOLEAN")) [⟨[], none⟩]
      rfl rfl,
   (C3_elseif_condition_error_not_shortcircuited.2.2.2.2
      "unknown operator: BOOLEAN + BOOLEAN").1,
   (C3_elseif_condition_error_not_shortcircuited.2.2.2.2
      "unknown operator: BOOLEAN + BOOLEAN").2⟩

/-- C8: indexing an Array of length `n` with Integer `i` yields the `i`-th
element when `0 ≤ i < n` and the singleton `NULL` when `i < 0` or `i ≥ n`;
a non-Array left operand or a non-Integer index yields the
`index operator not supported` Error. -/
theorem C8_array_index_soft_null :
    (∀ (elements : List (Option Obj)) (i : Int), 0 ≤ i →
      i < (elements.length : Int) →
      evalIndexExpression (some (.array elements)) (some (.integer i)) =
        .ok (elements.getD i.toNat none)) ∧
    (∀ (elements : List (Option Obj)) (i : Int),
      i < 0 ∨ (elements.length : Int) ≤ i →
      evalIndexExpression (some (.array elements)) (some (.integer i)) =
        .ok (some NULL)) ∧
    (∀ l i : Obj, l.type ≠ object.ARRAY_OBJ ∨ i.type ≠ object.INTEGER_OBJ →
      evalIndexExpression (some l) (some i) =
        .ok (some (newError ("index operator not supported: " ++ l.type)))) := by
  refine ⟨fun elements i h0 h1 => ?_, fun elements i h => ?_, fun l i h => ?_⟩
  · simp [evalIndexExpression, evalArrayIndexExpression, Obj.type]
    intro hcond
    exact absurd hcond (by omega)
  · simp [evalIndexExpression, evalArrayIndexExpression, Obj.type]
    intro h2 h3
    exact absurd h (by omega)
  · rcases h with hl | hi
    · simp [evalIndexExpression, hl]
    · by_cases hl : l.type = object.ARRAY_OBJ
      · simp [evalIndexExpression, hl, hi]
      · simp [evalIndexExpression, hl]

/-- C8 witness: in-range, out-of-range (both sides) and ill-typed indexing
at concrete inputs. -/
theorem C8_witness :
    evalIndexExpression (some (.array [some (.integer 7), some (.integer 8)]))
      (some (.integer 1)) = .ok (some (.integer 8)) ∧
    evalIndexExpression (some (.array [some (.integer 7), some (.integer 8)]))
      (some (.integer 3)) = .ok (some NULL) ∧
    evalIndexExpression (some (.array [some (.integer 7), some (.integer 8)]))
      (some (.integer (-1))) = .ok (some NULL) ∧
    evalIndexExpression (some (.stringObj "x")) (some (.integer 0)) =
      .ok (some (newError "index operator not supported: STRING")) :=
  ⟨C8_array_index_soft_null.1 [some (.integer 7), some (.integer 8)] 1
      (by decide) (by decide),
   C8_array_index_soft_null.2.1 [some (.integer 7), some (.integer 8)] 3
      (by decide),
   C8_array_index_soft_null.2.1 [some (.integer 7), some (.integer 8)] (-1)
      (by decide),
   C8_array_index_soft_null.2.2 (.stringObj "x") (.integer 0) (by decide)⟩

/-- C4 counterexample: the claim says a mixed Integer-left/Float-right
expression applies the operator in source order, so `2 - 1.5` would be
`Float 0.5`.  The code loads the float operand into `_floatValue` and the
integer into `_integerValue` and always computes
`_floatValue op _integerValue`, so `2 - 1.5` evaluates to `1.5 - 2 =`
`Float -0.5`, and `-0.5 ≠ 0.5`. -/
theorem C4_counterexample :
    evalInfixExpression "-" (some (.integer 2)) (some (.float (3 / 2))) =
      .ok (some (.float (-1 / 2))) ∧
    ((-1 : Rat) / 2) ≠ ((1 : Rat) / 2) := by
  constructor
  · simp [evalInfixExpression, Obj.type, object.INTEGER_OBJ, object.FLOAT_OBJ,
      object.STRING_OBJ, evalFloatIntegerInfixExpression, evalFloatIntegerApply]
    norm_num
  · norm_num

/-- C4 (amended): in a mixed Integer/Float infix expression the operators
`+ - * / % < > == !=` are computed by promoting the integer operand to float
and applying the operator with the *float* operand on the left and the
promoted integer on the right, regardless of source order (so with Integer
left `a` and Float right `b`, `a - b` evaluates to `float(b) - a`: `2 - 1.5`
is `Float -0.5`), which coincides with source order exactly when the Float
operand is on the left or the operator is commutative — e.g. `4 * 1.5` is
still `Float 6.0`. -/
theorem C4_mixed_numeric_float_always_left :
    (∀ (a : Int) (b : Rat),
      (evalFloatIntegerInfixExpression "+" (.integer a) (.float b) =
        .ok (some (.float (b + (a : Rat)))) ∧
       evalFloatIntegerInfixExpression "+" (.float b) (.integer a) =
        .ok (some (.float (b + (a : Rat))))) ∧
      (evalFloatIntegerInfixExpression "-" (.integer a) (.float b) =
        .ok (some (.float (b - (a : Rat)))) ∧
       evalFloatIntegerInfixExpression "-" (.float b) (.integer a) =
        .ok (some (.float (b - (a : Rat))))) ∧
      (evalFloatIntegerInfixExpression "*" (.integer a) (.float b) =
        .ok (some (.float (b * (a : Rat)))) ∧
       evalFloatIntegerInfixExpression "*" (.float b) (.integer a) =
        .ok (some (.float (b * (a : Rat))))) ∧
      (evalFloatIntegerInfixExpression "/" (.integer a) (.float b) =
        .ok (some (.float (b / (a : Rat)))) ∧
       evalFloatIntegerInfixExpression "/" (.float b) (.integer a) =
        .ok (some (.float (b / (a : Rat))))) ∧
      (evalFloatIntegerInfixExpression "%" (.integer a) (.float b) =
        .ok (some (.float (mathMod b (a : Rat)))) ∧
       evalFloatIntegerInfixExpression "%" (.float b) (.integer a) =
        .ok (some (.float (mathMod b (a : Rat))))) ∧
      (evalFloatIntegerInfixExpression "<" (.integer a) (.float b) =
        .ok (some (nativeToBooleanObject (b < (a : Rat)))) ∧
       evalFloatIntegerInfixExpression "<" (.float b) (.integer a) =
        .ok (some (nativeToBooleanObject (b < (a : Rat))))) ∧
      (evalFloatIntegerInfixExpression ">" (.integer a) (.float b) =
        .ok (some (nativeToBooleanObject (b > (a : Rat)))) ∧
       evalFloatIntegerInfixExpression ">" (.float b) (.integer a) =
        .ok (some (nativeToBooleanObject (b > (a : Rat))))) ∧
      (evalFloatIntegerInfixExpression "==" (.integer a) (.float b) =
        .ok (some (nativeToBooleanObject (b = (a : Rat)))) ∧
       evalFloatIntegerInfixExpression "==" (.float b) (.integer a) =
        .ok (some (nativeToBooleanObject (b = (a : Rat))))) ∧
      (evalFloatIntegerInfixExpression "!=" (.integer a) (.float b) =
        .ok (some (nativeToBooleanObject (b ≠ (a : Rat)))) ∧
       evalFloatIntegerInfixExpression "!=" (.float b) (.integer a) =
        .ok (some (nativeToBooleanObject (b ≠ (a : Rat)))))) ∧
    evalInfixExpression "*" (some (.integer 4)) (some (.float (3 / 2))) =
      .ok (some (.float 6)) := by
  constructor
  · exact fun a b =>
      ⟨⟨rfl, rfl⟩, ⟨rfl, rfl⟩, ⟨rfl, rfl⟩, ⟨rfl, rfl⟩, ⟨rfl, rfl⟩,
       ⟨rfl, rfl⟩, ⟨rfl, rfl⟩, ⟨rfl, rfl⟩, ⟨rfl, rfl⟩⟩
  · simp [evalInfixExpression, Obj.type, object.INTEGER_OBJ, object.FLOAT_OBJ,
      object.STRING_OBJ, evalFloatIntegerInfixExpression, evalFloatIntegerApply]
    norm_num

/-- C5 counterexample: the Boolean produced by a string `==` comparison is a
*fresh* allocation, not one of the two singletons, so the `==` identity
fallback does not equate it with `TRUE`: `("a" == "a") == true` evaluates to
the singleton `FALSE`, not `true` as the claim states. -/
theorem C5_counterexample :
    evalStringInfixExpression "==" (.stringObj "a") (.stringObj "a") =
      .ok (some (.boolean true false)) ∧
    (Obj.boolean true false) ≠ TRUE ∧
    (EvalTop 20 stringEqSingletonProgram).value = some (some FALSE) ∧
    FALSE ≠ TRUE := by
  refine ⟨rfl, ?_, rfl, ?_⟩ <;> simp [TRUE, FALSE]

/-- C5 (amended): every Boolean produced through `nativeToBooleanObject`
(boolean literals, comparisons of integers/floats, the identity fallback) is
one of the two shared singletons, and the only Null value is the singleton —
but the Boolean returned by a string `==` comparison is a fresh non-singleton
allocation, which the `==`/`!=` identity-comparison fallback never equates
with either singleton; consequently `("a" == "a") == true` evaluates to
`FALSE`. -/
theorem C5_string_eq_returns_fresh_boolean :
    (∀ b : Bool, nativeToBooleanObject b = TRUE ∨ nativeToBooleanObject b = FALSE) ∧
    (∀ s t : String, evalStringInfixExpression "==" (.stringObj s) (.stringObj t) =
      .ok (some (.boolean (s = t) false))) ∧
    (∀ d : Bool, goPtrEq (.boolean d false) TRUE = false ∧
      goPtrEq (.boolean d false) FALSE = false ∧
      goPtrEq TRUE (.boolean d false) = false ∧
      goPtrEq FALSE (.boolean d false) = false) ∧
    (EvalTop 20 stringEqSingletonProgram).value = some (some FALSE) := by
  refine ⟨fun b => ?_, fun s t => rfl, fun d => ⟨rfl, rfl, rfl, rfl⟩, rfl⟩
  cases b
  · exact Or.inr rfl
  · exact Or.inl rfl

/-- C6: the claim (matching the spec and the repository's own
`TestBuiltinFunctions`, which exercises `rest`, `push` and `pop` and expects
array results) says all six names resolve to pre-registered builtins; but the
`builtins` table in `evaluator.go` contains only `len`, `first` and `last`,
so `rest`, `push` and `pop` fall through to the `identifier not found` error
— e.g. the tested program `rest([1, 2, 3])` evaluates to that error instead
of `[2, 3]`. -/
theorem C6_rest_push_pop_not_registered :
    builtins "len" = some (.builtin "len") ∧
    builtins "first" = some (.builtin "first") ∧
    builtins "last" = some (.builtin "last") ∧
    builtins "rest" = none ∧
    builtins "push" = none ∧
    builtins "pop" = none ∧
    (EvalTop 20 [.exprStmt (some (.callExpr (.identifier "rest")
        [.arrayLit [.integerLiteral "1" 1, .integerLiteral "2" 2,
          .integerLiteral "3" 3]]))]).value =
      some (some (.error "identifier not found: rest")) ∧
    evalIdentifier "push" (NewEnvironment []).1 (NewEnvironment []).2 =
      some (.error "identifier not found: push") ∧
    evalIdentifier "pop" (NewEnvironment []).1 (NewEnvironment []).2 =
      some (.error "identifier not found: pop") :=
  ⟨rfl, rfl, rfl, rfl, rfl, rfl, rfl, rfl, rfl⟩

/-- C10: `first`/`last` applied to an empty Array (one argument) yield the
singleton `NULL`; applied to a single non-Array argument they yield the
argument-type Error; applied with any argument count other than one they
yield the wrong-number-of-arguments Error. -/
theorem C10_first_last_empty_array_null :
    builtinFn "first" [some (.array [])] = .ok (some NULL) ∧
    builtinFn "last" [some (.array [])] = .ok (some NULL) ∧
    (∀ o : Obj, o.type ≠ object.ARRAY_OBJ →
      builtinFn "first" [some o] = .ok (some (newError
        ("argument to \"first\" must be an ARRAY type.\ngot " ++ o.type))) ∧
      builtinFn "last" [some o] = .ok (some (newError
        ("argument to \"last\" must be an ARRAY type.\ngot " ++ o.type)))) ∧
    (∀ args : List (Option Obj), args.length ≠ 1 →
      builtinFn "first" args = .ok (some (newError
        ("wrong number of arguments.\nexpected=1, got=" ++ toString args.length))) ∧
      builtinFn "last" args = .ok (some (newError
        ("wrong number of arguments.\nexpected=1, got=" ++ toString args.length)))) := by
  refine ⟨rfl, rfl, fun o h => ?_, fun args h => ?_⟩
  · constructor <;> simp [builtinFn, builtinFirst, builtinLast, h]
  · constructor <;> simp [builtinFn, builtinFirst, builtinLast, h]

/-- C2: a statement result that is a `ReturnValueWrapper` stops `evalProgram`
and yields its *inner* value; an `Error` stops it and yields the Error
unchanged; `evalBlockStatement` stops on the same results but propagates them
*intact* (no unwrap); and a function call unwraps a `ReturnValueWrapper`
produced by its body into the call's ordinary result. -/
theorem C2_return_unwrap_levels :
    (∀ (fuel : Nat) (s : Stmt) (rest : List Stmt) (r0 : Option Obj) (env : Nat)
       (st : Store) (v : Option Obj) (st' : Store),
      Eval fuel (.statement s) env st = .ok (some (.returnValue v)) st' →
      evalProgramLoop (fuel + 1) (s :: rest) r0 env st = .ok v st') ∧
    (∀ (fuel : Nat) (s : Stmt) (rest : List Stmt) (r0 : Option Obj) (env : Nat)
       (st : Store) (m : String) (st' : Store),
      Eval fuel (.statement s) env st = .ok (some (.error m)) st' →
      evalProgramLoop (fuel + 1) (s :: rest) r0 env st = .ok (some (.error m)) st') ∧
    (∀ (fuel : Nat) (s : Stmt) (rest : List Stmt) (r0 : Option Obj) (env : Nat)
       (st : Store) (r : Obj) (st' : Store),
      Eval fuel (.statement s) env st = .ok (some r) st' →
      r.type = object.RETURN_VALUE_OBJ ∨ r.type = object.ERROR_OBJ →
      evalBlockLoop (fuel + 1) (s :: rest) r0 env st = .ok (some r) st') ∧
    (∀ (fuel : Nat) (parameters : List String) (body : Block) (fnEnv : Nat)
       (args : List (Option Obj)) (st : Store) (extendedEnv : Nat) (st1 : Store)
       (evaluated : Option Obj) (st2 : Store),
      extendFunctionEnv parameters fnEnv args st = some (extendedEnv, st1) →
      Eval fuel (.statement (.blockStmt body)) extendedEnv st1 = .ok evaluated st2 →
      applyFunction (fuel + 1) (some (.function parameters body fnEnv)) args st =
        .ok (unwrapReturnValue evaluated) st2) := by
  refine ⟨fun fuel s rest r0 env st v st' h => ?_,
    fun fuel s rest r0 env st m st' h => ?_,
    fun fuel s rest r0 env st r st' h h2 => ?_,
    fun fuel parameters body fnEnv args st extendedEnv st1 evaluated st2 hext heval => ?_⟩
  · simp [evalProgramLoop, h]
  · simp [evalProgramLoop, h]
  · simp only [evalBlockLoop]
    rw [h]
    simp only [if_pos h2]
  · simp [applyFunction, hext, heval]

/-- C2 witness: the general stop/unwrap branches at concrete inputs —
`return 7` unwrapped at program level, `5 + true` stopping a program, the
same `return 7` propagated intact by a block, and a call of `fn(x) { return x; }`
at `2` unwrapping its body's wrapper. -/
theorem C2_witness :
    evalProgramLoop 6
      [.returnStmt "return" (some (.integerLiteral "7" 7)),
        .exprStmt (some (.integerLiteral "9" 9))] none 0 [⟨[], none⟩] =
      .ok (some (.integer 7)) [⟨[], none⟩] ∧
    evalProgramLoop 6
      [.exprStmt (some (.infixExpr "+" (.integerLiteral "5" 5)
          (.booleanLit "true" true))),
        .exprStmt (some (.integerLiteral "9" 9))] none 0 [⟨[], none⟩] =
      .ok (some (.error "type mismatch: INTEGER + BOOLEAN")) [⟨[], none⟩] ∧
    evalBlockLoop 6
      [.returnStmt "return" (some (.integerLiteral "7" 7)),
        .exprStmt (some (.integerLiteral "9" 9))] none 0 [⟨[], none⟩] =
      .ok (some (.returnValue (some (.integer 7)))) [⟨[], none⟩] ∧
    applyFunction 6
      (some (.function ["x"]
        (.mk [.returnStmt "return" (some (.identifier "x"))]) 0))
      [some (.integer 2)] [⟨[], none⟩] =
      .ok (some (.integer 2)) [⟨[], none⟩, ⟨[("x", some (.integer 2))], some 0⟩] :=
  ⟨C2_return_unwrap_levels.1 5 (.returnStmt "return" (some (.integerLiteral "7" 7)))
      [.exprStmt (some (.integerLiteral "9" 9))] none 0 [⟨[], none⟩]
      (some (.integer 7)) [⟨[], none⟩] rfl,
   C2_return_unwrap_levels.2.1 5
      (.exprStmt (some (.infixExpr "+" (.integerLiteral "5" 5)
        (.booleanLit "true" true))))
      [.exprStmt (some (.integerLiteral "9" 9))] none 0 [⟨[], none⟩]
      "type mismatch: INTEGER + BOOLEAN" [⟨[], none⟩] rfl,
   C2_return_unwrap_levels.2.2.1 5
      (.returnStmt "return" (some (.integerLiteral "7" 7)))
      [.exprStmt (some (.integerLiteral "9" 9))] none 0 [⟨[], none⟩]
      (.returnValue (some (.integer 7))) [⟨[], none⟩] rfl (Or.inl rfl),
   C2_return_unwrap_levels.2.2.2 5 ["x"]
      (.mk [.returnStmt "return" (some (.identifier "x"))]) 0
      [some (.integer 2)] [⟨[], none⟩] 1
      [⟨[], none⟩, ⟨[("x", some (.integer 2))], some 0⟩]
      (some (.returnValue (some (.integer 2))))
      [⟨[], none⟩, ⟨[("x", some (.integer 2))], some 0⟩] rfl rfl⟩

/-- Setting an index below the length updates `get?` at that index. -/
theorem list_set_get?_self {α : Type _} (l : List α) (i : Nat) (x : α)
    (h : i < l.length) : (l.set i x).get? i = some x := by
  induction l generalizing i with
  | nil => simp at h
  | cons a rest ih =>
    cases i with
    | zero => rfl
    | succ i => exact ih i (Nat.lt_of_succ_lt_succ h)

/-- Go map update then read of the same key. -/
theorem storeGet_storeSet_self (s : List (String × Option Obj)) (n : String)
    (v : Option Obj) : storeGet (storeSet s n v) n = some v := by
  induction s with
  | nil => simp [storeSet, storeGet]
  | cons kv rest ih =>
    obtain ⟨k, w⟩ := kv
    by_cases hk : k = n
    · simp [storeSet, storeGet, hk]
    · simp [storeSet, storeGet, hk, ih]

/-- Go map update then read of a different key. -/
theorem storeGet_storeSet_ne (s : List (String × Option Obj)) (n : String)
    (v : Option Obj) (n' : String) (h : n' ≠ n) :
    storeGet (storeSet s n v) n' = storeGet s n' := by
  induction s with
  | nil => simp [storeSet, storeGet, Ne.symm h]
  | cons kv rest ih =>
    obtain ⟨k, w⟩ := kv
    by_cases hk : k = n
    · subst hk
      simp [storeSet, storeGet, Ne.symm h]
    · simp [storeSet, storeGet, hk, ih]

/-- `Environment.Set` rewrites exactly the addressed frame. -/
theorem envSet_get?_self (st : Store) (env : Nat) (f : Frame) (n : String)
    (v : Option Obj) (h : st.get? env = some f) :
    (envSet st env n v).get? env = some ⟨storeSet f.store n v, f.outer⟩ := by
  have hlt : env < st.length := by
    by_contra hge
    rw [List.get?_eq_none.mpr (by omega)] at h
    exact Option.noConfusion h
  simp only [envSet, h]
  exact list_set_get?_self st env _ hlt

/-- The parameter-binding loop, described: the bound frame keeps its outer
link, names not among the parameters keep their previous (absent) binding,
and each parameter/argument pair from the positional `zip` is bound (for
duplicate-free parameter lists). -/
theorem bindParams_sound (ps : List String) (args : List (Option Obj))
    (env : Nat) (st st' : Store) (f : Frame)
    (hb : bindParams ps args env st = some st') (hf : st.get? env = some f)
    (hnd : ps.Nodup) :
    ∃ g : Frame, st'.get? env = some g ∧ g.outer = f.outer ∧
      (∀ n, n ∉ ps → storeGet g.store n = storeGet f.store n) ∧
      (∀ n a, (n, a) ∈ ps.zip args → storeGet g.store n = some a) := by
  induction ps generalizing args st f with
  | nil =>
    simp only [bindParams, Option.some.injEq] at hb
    subst hb
    exact ⟨f, hf, rfl, fun n _ => rfl, fun n a hmem => by simp at hmem⟩
  | cons p pt ih =>
    cases args with
    | nil => simp [bindParams] at hb
    | cons a rest =>
      rw [List.nodup_cons] at hnd
      obtain ⟨hp, hnd'⟩ := hnd
      have hf' : (envSet st env p a).get? env =
          some ⟨storeSet f.store p a, f.outer⟩ := envSet_get?_self st env f p a hf
      simp only [bindParams] at hb
      obtain ⟨g, hg, houter, hunset, hset⟩ :=
        ih rest (envSet st env p a) ⟨storeSet f.store p a, f.outer⟩ hb hf' hnd'
      refine ⟨g, hg, houter, ?_, ?_⟩
      · intro n hn
        simp only [List.mem_cons, not_or] at hn
        obtain ⟨hnp, hnpt⟩ := hn
        rw [hunset n hnpt]
        exact storeGet_storeSet_ne f.store p a n hnp
      · intro n b hmem
        rw [List.zip_cons_cons] at hmem
        rcases List.mem_cons.mp hmem with heq | htail
        · simp only [Prod.mk.injEq] at heq
          obtain ⟨rfl, rfl⟩ := heq
          rw [hunset n hp]
          exact storeGet_storeSet_self f.store n b
        · exact hset n b htail

/-- C7: a user Function call builds a *fresh* environment (`extendFunctionEnv`
returns the next free store index) whose outer link is the function's
captured environment — the caller's environment never enters the call path —
and binds each parameter name positionally to the corresponding evaluated
argument (with no other binding in the fresh frame); consequently the
closure program
`let newAdder = fn(x) { fn(y) { x + y }; }; let addTwo = newAdder(2); addTwo(2);`
evaluates to `Integer 4`. -/
theorem C7_closure_fresh_env_positional_binding :
    (∀ (parameters : List String) (fnEnv : Nat) (args : List (Option Obj))
       (st : Store) (env' : Nat) (st' : Store),
      extendFunctionEnv parameters fnEnv args st = some (env', st') →
      parameters.Nodup →
      env' = st.length ∧
      frameOuter st' env' = some (some fnEnv) ∧
      (∀ n a, (n, a) ∈ parameters.zip args → envGet 1 st' env' n = some a) ∧
      (∀ n, n ∉ parameters → envGet 1 st' env' n = none)) ∧
    (EvalTop 50 closureProgram).value = some (some (.integer 4)) := by
  constructor
  · intro parameters fnEnv args st env' st' hext hnd
    simp only [extendFunctionEnv, NewEnclosedEnvironment] at hext
    cases hb : bindParams parameters args st.length (st ++ [⟨[], some fnEnv⟩]) with
    | none => rw [hb] at hext; simp at hext
    | some st'' =>
      rw [hb] at hext
      simp only [Option.some.injEq, Prod.mk.injEq] at hext
      obtain ⟨rfl, rfl⟩ := hext
      have hf : (st ++ [(⟨[], some fnEnv⟩ : Frame)]).get? st.length =
          some ⟨[], some fnEnv⟩ := by
        rw [List.get?_eq_getElem?]
        exact List.getElem?_concat_length _ _
      obtain ⟨g, hg, houter, hunset, hset⟩ :=
        bindParams_sound parameters args st.length _ _ _ hb hf hnd
      refine ⟨rfl, ?_, fun n a hmem => ?_, fun n hn => ?_⟩
      · simp only [frameOuter]
        rw [hg]
        simp [houter]
      · simp only [envGet]
        rw [hg]
        simp [hset n a hmem]
      · have hnone : storeGet g.store n = none := by
          rw [hunset n hn]; rfl
        simp only [envGet]
        rw [hg]
        simp [hnone, houter]
  · rfl

/-- C7 witness: `extendFunctionEnv` on one parameter `x` and argument
`Integer 2` over a one-frame store builds frame 1 with outer link 0 and the
single binding `x ↦ 2`. -/
theorem C7_witness :
    (["x"] : List String).Nodup ∧
    extendFunctionEnv ["x"] 0 [some (.integer 2)] [⟨[], none⟩] =
      some (1, [⟨[], none⟩, ⟨[("x", some (.integer 2))], some 0⟩]) ∧
    (1 = ([(⟨[], none⟩ : Frame)] : Store).length ∧
      frameOuter [⟨[], none⟩, ⟨[("x", some (.integer 2))], some 0⟩] 1 =
        some (some 0) ∧
      (∀ n a, (n, a) ∈ (["x"] : List String).zip [some (Obj.integer 2)] →
        envGet 1 [⟨[], none⟩, ⟨[("x", some (.integer 2))], some 0⟩] 1 n = some a) ∧
      (∀ n, n ∉ (["x"] : List String) →
        envGet 1 [⟨[], none⟩, ⟨[("x", some (.integer 2))], some 0⟩] 1 n = none)) :=
  ⟨by decide, rfl,
   C7_closure_fresh_env_positional_binding.1 ["x"] 0 [some (.integer 2)]
     [⟨[], none⟩] 1 [⟨[], none⟩, ⟨[("x", some (.integer 2))], some 0⟩] rfl
     (by decide)⟩

/-- C9: lexing and parsing `a + b * c + d / e - f` with the Pratt parser and
stringifying the resulting AST renders precedence and associativity
explicitly — equal-precedence operators nest left-associatively and `*`/`/`
bind tighter than `+`/`-` — and the parse produces no errors. -/
theorem C9_precedence_roundtrip :
    programString (parseSource 64 roundTripInput).1 =
      "(((a + (b * c)) + (d / e)) - f)" ∧
    (parseSource 64 roundTripInput).2.errors = [] :=
  ⟨rfl, rfl⟩

/-- C10 witness: the empty-array, non-array and zero-argument cases at
concrete inputs. -/
theorem C10_witness :
    ((Obj.integer 5).type ≠ object.ARRAY_OBJ ∧
      builtinFn "first" [some (.integer 5)] = .ok (some (newError
        ("argument to \"first\" must be an ARRAY type.\ngot INTEGER")))) ∧
    (([] : List (Option Obj)).length ≠ 1 ∧
      builtinFn "last" ([] : List (Option Obj)) = .ok (some (newError
        ("wrong number of arguments.\nexpected=1, got=0")))) :=
  ⟨⟨by decide, (C10_first_last_empty_array_null.2.2.1 (.integer 5) (by decide)).1⟩,
   ⟨by decide, (C10_first_last_empty_array_null.2.2.2 [] (by decide)).2⟩⟩

end Monkey
